import Mathlib

/-!
# Verification of the mamahelper dose calculator and dose ledger

Shallow embedding of `src/app/calculators/core.py` (the dose calculator),
`src/app/storage.py` (the dose ledger) and the request construction in
`src/app/handlers/dose.py`.

Modelling conventions:
* Python floats are modelled as exact rationals (`ℚ`).
* UTC instants are modelled as rationals counting seconds; a Python
  `timedelta(hours=h)` becomes `3600 * h` seconds.  The ledger stores
  ISO-8601 UTC strings whose lexicographic order coincides with
  chronological order, so the string comparisons in the SQL queries are
  modelled as rational comparisons on the stored instant.
* Python `round` (banker's rounding, round-half-to-even) is modelled by
  `pyRound`; `round(x, n)` by `roundTo x n`.
* The async SQLite store is modelled as an explicit list of rows passed
  in and out; a fallible run of an operation is modelled by `Except`,
  with the lock status of the i-th connection attempt given by an
  oracle `locked : ℕ → Bool`.
-/

namespace MamaHelper

/-- Python `round` with no digits: round half to even (banker's rounding). -/
def pyRound (x : ℚ) : ℤ :=
  let n := ⌊x⌋
  let r := x - n
  if r < 1/2 then n
  else if 1/2 < r then n + 1
  else if n % 2 = 0 then n else n + 1

/-- Python `round(x, d)` for a nonnegative digit count `d`. -/
def roundTo (x : ℚ) (d : ℕ) : ℚ :=
  (pyRound (x * 10 ^ d) : ℚ) / 10 ^ d

/-- Drug keys: `models.py` restricts `drug_key` to
`Literal["paracetamol", "ibuprofen"]`. -/
inductive DrugKey where
  | paracetamol
  | ibuprofen
deriving DecidableEq, Repr

/-- Routes: `models.py` restricts `route` to `Literal["oral"]`. -/
inductive Route where
  | oral
deriving DecidableEq, Repr

/-- One row of `age_band_ml` inside a fixed-concentration entry of the
formulary (`_age_band_ibuprofen_ml` reads `min_months`, `max_months`, `ml`). -/
structure AgeBandRow where
  minMonths : ℤ
  maxMonths : ℤ
  ml : ℚ
deriving DecidableEq, Repr

/-- A `fixed_concentrations` entry of the formulary.  The code reads the
optional fields with `cfg.get(..., 0) or 0`, so an absent `min_weight_kg`
or `min_age_months` is modelled as `0` (Python falsy). -/
structure FixedConc where
  mgPerMl : ℚ
  label : String
  minWeightKg : ℚ
  minAgeMonths : ℤ
  ageBandMl : List AgeBandRow
deriving DecidableEq, Repr

/-- Per-drug formulary entry, as read by `calc_dose`:
`min_age_months`, `mg_per_kg_single_dose_range`, `min_interval_hours`,
`max_daily_mg_per_kg` and the oral route's `fixed_concentrations` list. -/
structure DrugCfg where
  minAgeMonths : ℤ
  mgPerKgRangeLo : ℚ
  mgPerKgRangeHi : ℚ
  minIntervalHours : ℤ
  maxDailyMgPerKg : ℚ
  fixedConcentrations : List FixedConc
deriving DecidableEq, Repr

/-- The formulary: `f["drugs"].get(drug_key)` in the code. -/
structure Formulary where
  drugs : DrugKey → Option DrugCfg

/-- `DoseRequest` from `models.py`: optional age in months, weight in kg,
drug key, route, concentration in mg/mL, optional last-dose instant and
the caller-supplied running daily total in mg. -/
structure DoseRequest where
  childAgeMonths : Option ℤ
  childWeightKg : ℚ
  drugKey : DrugKey
  route : Route
  concentrationMgPerMl : ℚ
  lastDoseAt : Option ℚ
  dailyTotalMg : ℚ
deriving DecidableEq, Repr

/-- `DoseResult` from `models.py`.  Fields not set at a construction site
keep their pydantic defaults (`None` / `[]`). -/
structure DoseResult where
  ok : Bool
  message : String
  doseMg : Option ℚ := none
  doseMl : Option ℚ := none
  minNextTime : Option ℚ := none
  dailyRemainingMg : Option ℚ := none
  flags : List String := []
deriving DecidableEq, Repr

/-- The recurring Python idiom `age is not None and age < n` of the age
gates in `calc_dose`. -/
def ageKnownLt (age : Option ℤ) (n : ℤ) : Bool :=
  match age with
  | none => false
  | some a => decide (a < n)

/-- `_find_ibuprofen_conc_cfg`: scan the ibuprofen oral
`fixed_concentrations` list for an entry whose `mg_per_ml` equals the
requested concentration.  (In `calc_dose` this is only reached when the
ibuprofen entry exists; an absent entry yields no match.) -/
def findIbuprofenConcCfg (f : Formulary) (mgPerMl : ℚ) : Option FixedConc :=
  match f.drugs DrugKey.ibuprofen with
  | none => none
  | some d => d.fixedConcentrations.find? (fun item => item.mgPerMl = mgPerMl)

/-- `_age_band_ibuprofen_ml`: the age-band volume hint (message only). -/
def ageBandIbuprofenMl (f : Formulary) (ageMonths : Option ℤ) (mgPerMl : ℚ) :
    Option ℚ :=
  match ageMonths with
  | none => none
  | some a =>
    match findIbuprofenConcCfg f mgPerMl with
    | none => none
    | some cfg =>
      match cfg.ageBandMl.find? (fun row => row.minMonths ≤ a ∧ a ≤ row.maxMonths) with
      | none => none
      | some row => some row.ml

/-- The fixed per-drug target mg/kg of `calc_dose` (the code hard-codes
10 for ibuprofen and 15 for paracetamol; the range-midpoint fallback
branch is unreachable because `drug_key` is restricted to these two). -/
def targetMgPerKg : DrugKey → ℚ
  | DrugKey.ibuprofen => 10
  | DrugKey.paracetamol => 15

/-- The raw single dose `dose_mg = req.child_weight_kg * target`. -/
def rawDoseMg (req : DoseRequest) : ℚ :=
  req.childWeightKg * targetMgPerKg req.drugKey

/-- The concentration-specific gate of `calc_dose` (the
`if req.drug_key == "ibuprofen" and req.route == "oral"` block):
`some r` means the gate rejected with result `r`, `none` means fall
through. -/
def concGateCheck (f : Formulary) (req : DoseRequest) : Option DoseResult :=
  if req.drugKey = DrugKey.ibuprofen ∧ req.route = Route.oral then
    match findIbuprofenConcCfg f req.concentrationMgPerMl with
    | none => none
    | some cfg =>
      if cfg.minWeightKg ≠ 0 ∧ req.childWeightKg < cfg.minWeightKg then
        some { ok := false
               message := "Для ибупрофена 200 мг/5мл (40 мг/мл): масса тела ребёнка менее 10 кг — противопоказание. Нужна консультация педиатра ❤️‍🩹"
               flags := ["ibuprofen_40_contra_weight"] }
      else if cfg.minAgeMonths ≠ 0 ∧
          ageKnownLt req.childAgeMonths cfg.minAgeMonths then
        some { ok := false
               message := "Для ибупрофена 200 мг/5мл (40 мг/мл): возраст до 12 месяцев — противопоказание. Нужна консультация педиатра ❤️‍🩹"
               flags := ["ibuprofen_40_contra_age"] }
      else none
  else none

/-- Steps 12–13 of `calc_dose`: the mg→mL conversion
(`dose_ml = round((dose_mg / concentration) * 2) / 2.0`) and the success
result (`dose_mg` and `daily_remaining_mg` rounded to 0 digits, `dose_ml`
to 1 digit for display). -/
def successResult (f : Formulary) (drug : DrugCfg) (req : DoseRequest) :
    DoseResult :=
  let doseMg := rawDoseMg req
  let maxDaily := drug.maxDailyMgPerKg * req.childWeightKg
  let doseMl : ℚ := (pyRound (doseMg / req.concentrationMgPerMl * 2) : ℚ) / 2
  let msg0 := "Готово: посчитали разовую дозу по весу (подсказка, не заменяет врача)."
  let msg1 :=
    if req.drugKey = DrugKey.ibuprofen then
      msg0 ++ " В расчёте использовано 10 мг/кг на приём."
    else msg0
  let msg2 :=
    if req.drugKey = DrugKey.paracetamol then
      msg1 ++ " В расчёте использовано 15 мг/кг на приём."
    else msg1
  let msg3 :=
    if req.drugKey = DrugKey.ibuprofen ∧ req.route = Route.oral then
      match ageBandIbuprofenMl f req.childAgeMonths req.concentrationMgPerMl with
      | none => msg2
      | some bandMl =>
        let concSuffix :=
          if req.concentrationMgPerMl = 20 then " при 100 мг/5 мл"
          else " при 200 мг/5мл (40 мг/мл)"
        msg2 ++ " По возрастной подсказке обычно используют ~" ++
          toString bandMl ++ " мл" ++ concSuffix ++ "."
    else msg2
  let dailyRemaining := maxDaily - (req.dailyTotalMg + doseMg)
  { ok := true
    message := msg3
    doseMg := some (roundTo doseMg 0)
    doseMl := some (roundTo doseMl 1)
    minNextTime := none
    dailyRemainingMg := some (roundTo dailyRemaining 0)
    flags := [] }

/-- Step 11 of `calc_dose`: the daily-maximum gate, then the success
result. -/
def dailyStage (f : Formulary) (drug : DrugCfg) (req : DoseRequest) :
    DoseResult :=
  let doseMg := rawDoseMg req
  let maxDaily := drug.maxDailyMgPerKg * req.childWeightKg
  if req.dailyTotalMg + doseMg > maxDaily then
    { ok := false
      message := "Похоже, суточный максимум будет превышен 😔 Проверьте предыдущие приёмы и при сомнениях свяжитесь с педиатром."
      flags := ["max_daily_exceeded"] }
  else successResult f drug req

/-- Step 10 of `calc_dose` (the interval gate), then `dailyStage`. -/
def intervalStage (f : Formulary) (drug : DrugCfg) (now : ℚ)
    (req : DoseRequest) : DoseResult :=
  match req.lastDoseAt with
  | some lastAt =>
    let minNext := lastAt + 3600 * (drug.minIntervalHours : ℚ)
    if now < minNext then
      { ok := false
        message := "Ещё рано для следующей дозы. Минимальный интервал — " ++
          toString drug.minIntervalHours ++ " ч."
        minNextTime := some minNext
        flags := ["interval_violation"] }
    else dailyStage f drug req
  | none => dailyStage f drug req

/-- `calc_dose` from `src/app/calculators/core.py`: the ordered,
short-circuiting gate pipeline.  `now` stands for the
`datetime.now(timezone.utc)` read inside the interval gate. -/
def calcDose (f : Formulary) (now : ℚ) (req : DoseRequest) : DoseResult :=
  match f.drugs req.drugKey with
  | none =>
    { ok := false
      message := "Ой, не узнаю препарат 😕 Проверьте название или попробуйте снова."
      flags := ["unknown_drug"] }
  | some drug =>
    if req.drugKey = DrugKey.paracetamol ∧ ageKnownLt req.childAgeMonths 2 then
      { ok := false
        message := "Для парацетамола: возраст ребёнка младше 2 месяцев — противопоказание без назначения врача. Пожалуйста, обсудите это с педиатром ❤️‍🩹"
        flags := ["paracetamol_contra_age_under_2m"] }
    else if ageKnownLt req.childAgeMonths 3 then
      { ok := false
        message := "Малыш младше 3 месяцев. Не давайте жаропонижающее без назначения врача. Если температура ≥ 38 °C — это «красный флаг»: нужна срочная очная оценка врача."
        flags := ["age_under_3_months"] }
    else if ageKnownLt req.childAgeMonths drug.minAgeMonths then
      { ok := false
        message := "Для этого возраста препарат без назначения врача не рекомендуем. Пожалуйста, обсудите с педиатром."
        flags := ["age_restriction"] }
    else if req.drugKey = DrugKey.ibuprofen ∧ req.childWeightKg < 5 then
      { ok := false
        message := "Для ибупрофена: масса тела до 5 кг — противопоказание без назначения врача. Пожалуйста, обратитесь к педиатру ❤️‍🩹"
        flags := ["ibuprofen_weight_gate_any_age"] }
    else
      match concGateCheck f req with
      | some r => r
      | none =>
        if req.concentrationMgPerMl ≤ 0 ∨ 200 < req.concentrationMgPerMl then
          { ok := false
            message := "Пожалуйста, проверьте концентрацию на флаконе (мг/мл)."
            flags := ["bad_concentration"] }
        else intervalStage f drug now req

/-! Modelled from the spec: the formulary YAML (`formulary_lv.yml`) is
loaded by `load_formulary` in `app/utils.py` but the file itself is not
under `src/`.  The concrete formulary below takes its values from the
spec and from constants visible in `src/`: targets 10/15 mg/kg,
ibuprofen fixed concentration 40 mg/mL with a 10 kg weight floor and
12-month age floor (spec §8 scenario and the messages in `core.py`), a
20 mg/mL ("100 мг/5 мл") entry with no floors of its own (spec §8
scenario at 12 kg), maximum daily doses 30 mg/kg (ibuprofen) and
60 mg/kg (paracetamol) and minimum intervals 6 h / 4 h (the advice
texts in `src/app/handlers/dose.py`).  The per-drug minimum ages are
not pinned by the spec; 3 months is used, consistent with the universal
3-month gate. -/

/-- Modelled from the spec: the 20 mg/mL ("100 мг/5 мл") ibuprofen
entry, with no floors of its own. -/
def fixedConc20 : FixedConc :=
  { mgPerMl := 20
    label := "100 мг/5 мл"
    minWeightKg := 0
    minAgeMonths := 0
    ageBandMl := [] }

/-- Modelled from the spec: the 40 mg/mL ("200 мг/5мл") ibuprofen entry
with its 10 kg weight floor and 12-month age floor. -/
def fixedConc40 : FixedConc :=
  { mgPerMl := 40
    label := "200 мг/5мл (40 мг/мл)"
    minWeightKg := 10
    minAgeMonths := 12
    ageBandMl := [] }

/-- Modelled from the spec: the paracetamol formulary entry. -/
def paracetamolCfg : DrugCfg :=
  { minAgeMonths := 3
    mgPerKgRangeLo := 10
    mgPerKgRangeHi := 15
    minIntervalHours := 4
    maxDailyMgPerKg := 60
    fixedConcentrations := [] }

/-- Modelled from the spec: the ibuprofen formulary entry. -/
def ibuprofenCfg : DrugCfg :=
  { minAgeMonths := 3
    mgPerKgRangeLo := 5
    mgPerKgRangeHi := 10
    minIntervalHours := 6
    maxDailyMgPerKg := 30
    fixedConcentrations := [fixedConc20, fixedConc40] }

def specFormulary : Formulary where
  drugs := fun k =>
    match k with
    | DrugKey.paracetamol => some paracetamolCfg
    | DrugKey.ibuprofen => some ibuprofenCfg

/-- The `DoseRequest` built by `calculate_and_finish` in
`src/app/handlers/dose.py`: age unknown, no last-dose timestamp and a
zero running daily total. -/
def handlerRequest (weight concMgPerMl : ℚ) (drug : DrugKey) : DoseRequest :=
  { childAgeMonths := none
    childWeightKg := weight
    drugKey := drug
    route := Route.oral
    concentrationMgPerMl := concMgPerMl
    lastDoseAt := none
    dailyTotalMg := 0 }

/-! ## The dose ledger (`src/app/storage.py`) -/

/-- A row of the `dose_events` table, with the columns `calc`-relevant
code reads: `user_id`, `drug_key`, `dose_mg`, `child_name`, `created_at`
(display metadata columns are opaque and omitted). -/
structure DoseEvent where
  userId : ℤ
  drugKey : DrugKey
  doseMg : ℚ
  childName : Option String
  createdAt : ℚ
deriving DecidableEq, Repr

/-- The 24-hour window in seconds (`timedelta(hours=24)`). -/
def window24h : ℚ := 24 * 3600

/-- The `drug_key` part of the SQL `WHERE` clauses: filter by drug when
`drug` is truthy (a non-empty string), otherwise match every row. -/
def drugScopeMatch (drug : Option DrugKey) (e : DoseEvent) : Bool :=
  match drug with
  | some d => decide (e.drugKey = d)
  | none => true

/-- The `child_name` part of the `WHERE` clause of `get_daily_total_mg`:
`child_name = ?` when a (truthy) child name is given, otherwise no
child filter. -/
def childScopeMatch (childName : Option String) (e : DoseEvent) : Bool :=
  match childName with
  | some n => decide (e.childName = some n)
  | none => true

/-- `_prune_older_than_24h`: delete the rows of `user_id` (and of
`drug_key`, when `drug` is non-empty) whose `created_at` lies strictly
before `now − 24h`.  `drug = none` models the falsy empty string. -/
def pruneOlderThan24h (now : ℚ) (userId : ℤ) (drug : Option DrugKey)
    (db : List DoseEvent) : List DoseEvent :=
  let cutoff := now - window24h
  db.filter (fun e =>
    ¬(e.userId = userId ∧ drugScopeMatch drug e ∧ e.createdAt < cutoff))

/-- The rows `get_daily_total_mg` sums after pruning: `user_id` and
`drug_key` match, the child scope matches, and `created_at >= now − 24h`. -/
def dailyRowPred (now : ℚ) (userId : ℤ) (drug : DrugKey)
    (childName : Option String) (e : DoseEvent) : Prop :=
  e.userId = userId ∧ e.drugKey = drug ∧
  childScopeMatch childName e = true ∧
  now - window24h ≤ e.createdAt

instance instDecidableDailyRowPred (now : ℚ) (userId : ℤ) (drug : DrugKey)
    (childName : Option String) (e : DoseEvent) :
    Decidable (dailyRowPred now userId drug childName e) :=
  inferInstanceAs (Decidable (_ ∧ _ ∧ _ ∧ _))

/-- The rows summed by `get_daily_total_mg` at query time `now`, taken
from the already-pruned table. -/
def dailyRows (now : ℚ) (userId : ℤ) (drug : DrugKey)
    (childName : Option String) (db : List DoseEvent) : List DoseEvent :=
  db.filter (fun e => dailyRowPred now userId drug childName e)

/-- `get_daily_total_mg`: prune, then `SELECT SUM(dose_mg)` over the
trailing-24h rows (a `NULL` sum is read back as `0`).  Returns the sum
and the table as the pruning left it. -/
def getDailyTotalMg (now : ℚ) (userId : ℤ) (drug : DrugKey)
    (childName : Option String) (db : List DoseEvent) :
    ℚ × List DoseEvent :=
  let db2 := pruneOlderThan24h now userId (some drug) db
  (((dailyRows now userId drug childName db2).map DoseEvent.doseMg).sum, db2)

/-- `save_dose_event`: insert a row stamped with the current UTC instant,
then `_prune_older_than_24h` for that user and drug. -/
def saveDoseEvent (now : ℚ) (userId : ℤ) (drug : DrugKey) (doseMg : ℚ)
    (childName : Option String) (db : List DoseEvent) : List DoseEvent :=
  pruneOlderThan24h now userId (some drug)
    (db ++ [{ userId := userId, drugKey := drug, doseMg := doseMg,
              childName := childName, createdAt := now }])

/-! ## Storage failure handling (`src/app/storage.py`)

`MAX_RETRIES`, `RETRY_DELAY` and `_db_connect_with_retry` model the
module's retry machinery; `locked i` tells whether the i-th connection
attempt of an operation run hits a `database is locked` error. -/

/-- `MAX_RETRIES = 5`. -/
def MAX_RETRIES : ℕ := 5

/-- `RETRY_DELAY = 0.1` seconds. -/
def RETRY_DELAY : ℚ := 1/10

/-- A storage failure surfaced to the caller (a raised
`aiosqlite.OperationalError`). -/
inductive DbError where
  | locked
deriving DecidableEq, Repr

/-- The retry loop of `_db_connect_with_retry` from attempt number
`attempt` with `fuel` iterations left: a locked attempt below
`MAX_RETRIES - 1` sleeps `RETRY_DELAY * 2 ** attempt` and retries;
otherwise the error is raised.  Returns the successful attempt number
and the list of backoff delays slept. -/
def retryFrom (locked : ℕ → Bool) : ℕ → ℕ → Except DbError ℕ × List ℚ
  | _, 0 => (Except.error DbError.locked, [])
  | attempt, fuel + 1 =>
    if locked attempt then
      if attempt < MAX_RETRIES - 1 then
        let rest := retryFrom locked (attempt + 1) fuel
        (rest.1, RETRY_DELAY * 2 ^ attempt :: rest.2)
      else (Except.error DbError.locked, [])
    else (Except.ok attempt, [])

/-- `_db_connect_with_retry`: up to `MAX_RETRIES` connection attempts
with exponential backoff. -/
def dbConnectWithRetry (locked : ℕ → Bool) : Except DbError ℕ × List ℚ :=
  retryFrom locked 0 MAX_RETRIES

/-- A run of `save_dose_event` against a store whose i-th connection
attempt is locked iff `locked i = true`: the insert connection and the
prune connection are each tried once — the function has no retry loop,
so a locked attempt raises immediately. -/
def saveDoseEventRun (locked : ℕ → Bool) (now : ℚ) (userId : ℤ)
    (drug : DrugKey) (doseMg : ℚ) (childName : Option String)
    (db : List DoseEvent) : Except DbError (List DoseEvent) :=
  if locked 0 then Except.error DbError.locked
  else if locked 1 then Except.error DbError.locked
  else Except.ok (saveDoseEvent now userId drug doseMg childName db)

/-- A run of `get_daily_total_mg` against a store whose i-th connection
attempt is locked iff `locked i = true`: the prune connection and the
query connection are each tried once — no retry loop, so a locked
attempt raises immediately (the caller sees an exception, never a `0`
total). -/
def getDailyTotalMgRun (locked : ℕ → Bool) (now : ℚ) (userId : ℤ)
    (drug : DrugKey) (childName : Option String) (db : List DoseEvent) :
    Except DbError (ℚ × List DoseEvent) :=
  if locked 0 then Except.error DbError.locked
  else if locked 1 then Except.error DbError.locked
  else Except.ok (getDailyTotalMg now userId drug childName db)

/-- A store that is locked on the first connection attempt of an
operation run and free afterwards (a transient lock conflict). -/
def lockedOnce : ℕ → Bool := fun i => i == 0

/-- A concrete ledger row: 250 mg of paracetamol for guardian 1 at
instant 100. -/
def eventW : DoseEvent :=
  { userId := 1
    drugKey := DrugKey.paracetamol
    doseMg := 250
    childName := none
    createdAt := 100 }

/-- Boundary request for the daily-maximum gate: paracetamol, 10 kg,
24 mg/mL, no previous dose, prior daily total `60 × 10 − 1 = 599` mg. -/
def reqDailyBoundary : DoseRequest :=
  { childAgeMonths := none
    childWeightKg := 10
    drugKey := DrugKey.paracetamol
    route := Route.oral
    concentrationMgPerMl := 24
    lastDoseAt := none
    dailyTotalMg := 599 }

/-- Boundary request for the interval gate: ibuprofen, 12 kg, 20 mg/mL,
previous dose at instant 0, zero daily total. -/
def reqInterval : DoseRequest :=
  { childAgeMonths := none
    childWeightKg := 12
    drugKey := DrugKey.ibuprofen
    route := Route.oral
    concentrationMgPerMl := 20
    lastDoseAt := some 0
    dailyTotalMg := 0 }

/-- The spec §8 concentration-gate scenario: 8 kg, 10 months, ibuprofen
at 40 mg/mL. -/
def reqConcGate : DoseRequest :=
  { childAgeMonths := some 10
    childWeightKg := 8
    drugKey := DrugKey.ibuprofen
    route := Route.oral
    concentrationMgPerMl := 40
    lastDoseAt := none
    dailyTotalMg := 0 }

/-! ## Helper lemmas -/

theorem pyRound_intCast (n : ℤ) : pyRound (n : ℚ) = n := by
  simp [pyRound]

theorem roundTo_zero_intCast (n : ℤ) : roundTo (n : ℚ) 0 = n := by
  simp [roundTo, pyRound_intCast]

theorem roundTo_one_half (k : ℤ) : roundTo ((k : ℚ) / 2) 1 = (k : ℚ) / 2 := by
  have h : ((k : ℚ) / 2) * 10 ^ 1 = ((5 * k : ℤ) : ℚ) := by push_cast; ring
  rw [roundTo, h, pyRound_intCast]
  push_cast
  ring

/-- `successResult` field values. -/
theorem successResult_ok (f : Formulary) (drug : DrugCfg) (req : DoseRequest) :
    (successResult f drug req).ok = true := by
  simp [successResult]

theorem successResult_doseMg (f : Formulary) (drug : DrugCfg)
    (req : DoseRequest) :
    (successResult f drug req).doseMg = some (roundTo (rawDoseMg req) 0) := by
  simp [successResult]

theorem successResult_doseMl (f : Formulary) (drug : DrugCfg)
    (req : DoseRequest) :
    (successResult f drug req).doseMl =
      some (roundTo
        ((pyRound (rawDoseMg req / req.concentrationMgPerMl * 2) : ℚ) / 2) 1) := by
  simp [successResult]

theorem successResult_flags (f : Formulary) (drug : DrugCfg)
    (req : DoseRequest) : (successResult f drug req).flags = [] := by
  simp [successResult]

theorem specFormulary_para :
    specFormulary.drugs DrugKey.paracetamol = some paracetamolCfg := rfl

theorem specFormulary_ibu :
    specFormulary.drugs DrugKey.ibuprofen = some ibuprofenCfg := rfl

/-- Both results of the concentration-specific gate are failures with no
dose fields. -/
theorem concGateCheck_some (f : Formulary) (req : DoseRequest)
    (r : DoseResult) (h : concGateCheck f req = some r) :
    r.ok = false ∧ r.doseMg = none ∧ r.doseMl = none ∧
      (r.flags = ["ibuprofen_40_contra_weight"] ∨
       r.flags = ["ibuprofen_40_contra_age"]) := by
  unfold concGateCheck at h
  split at h
  · split at h
    · simp at h
    · split_ifs at h <;> (try simp at h) <;> (cases h; simp)
  · simp at h

/-- The gates of `calc_dose` that run before the concentration-specific
gate (steps 1–5 minus the drug lookup), as short-circuit conditions. -/
def preConcGatesPass (drug : DrugCfg) (req : DoseRequest) : Prop :=
  ¬(req.drugKey = DrugKey.paracetamol ∧ ageKnownLt req.childAgeMonths 2 = true) ∧
  ¬(ageKnownLt req.childAgeMonths 3 = true) ∧
  ¬(ageKnownLt req.childAgeMonths drug.minAgeMonths = true) ∧
  ¬(req.drugKey = DrugKey.ibuprofen ∧ req.childWeightKg < 5)

/-- The concentration plausibility gate's rejection condition. -/
def badConcentration (req : DoseRequest) : Prop :=
  req.concentrationMgPerMl ≤ 0 ∨ 200 < req.concentrationMgPerMl

/-- The interval gate lets the evaluation through exactly when there is
no previous dose or `now` has reached `last_dose_at + min_interval`. -/
def intervalGatePasses (drug : DrugCfg) (now : ℚ) (req : DoseRequest) : Prop :=
  ∀ t, req.lastDoseAt = some t →
    ¬(now < t + 3600 * (drug.minIntervalHours : ℚ))

/-- When the drug is found and gates 2–7 pass, `calc_dose` reaches the
interval stage. -/
theorem calcDose_eq_intervalStage (f : Formulary) (now : ℚ)
    (req : DoseRequest) (drug : DrugCfg)
    (hd : f.drugs req.drugKey = some drug)
    (hg : preConcGatesPass drug req)
    (hc : concGateCheck f req = none)
    (hb : ¬badConcentration req) :
    calcDose f now req = intervalStage f drug now req := by
  obtain ⟨h1, h2, h3, h4⟩ := hg
  have hb' : ¬(req.concentrationMgPerMl ≤ 0 ∨ 200 < req.concentrationMgPerMl) := hb
  simp only [calcDose, hd, hc, if_neg h1, if_neg h2, if_neg h3, if_neg h4,
    if_neg hb']

/-- When additionally the interval gate passes, `calc_dose` reaches the
daily-maximum stage. -/
theorem calcDose_eq_dailyStage (f : Formulary) (now : ℚ)
    (req : DoseRequest) (drug : DrugCfg)
    (hd : f.drugs req.drugKey = some drug)
    (hg : preConcGatesPass drug req)
    (hc : concGateCheck f req = none)
    (hb : ¬badConcentration req)
    (hi : intervalGatePasses drug now req) :
    calcDose f now req = dailyStage f drug req := by
  rw [calcDose_eq_intervalStage f now req drug hd hg hc hb]
  unfold intervalStage
  cases hl : req.lastDoseAt with
  | none => rfl
  | some t => simp only [if_neg (hi t hl)]

/-- When the drug is found and gates 2–5 pass but the
concentration-specific gate rejects, `calc_dose` returns that gate's
result. -/
theorem calcDose_eq_concGate (f : Formulary) (now : ℚ) (req : DoseRequest)
    (drug : DrugCfg) (r : DoseResult)
    (hd : f.drugs req.drugKey = some drug)
    (hg : preConcGatesPass drug req)
    (hc : concGateCheck f req = some r) :
    calcDose f now req = r := by
  obtain ⟨h1, h2, h3, h4⟩ := hg
  simp only [calcDose, hd, hc, if_neg h1, if_neg h2, if_neg h3, if_neg h4]

/-- When the drug is found, the first three age gates pass and the
ibuprofen weight floor fires, `calc_dose` rejects there. -/
theorem calcDose_eq_ibuWeightGate (f : Formulary) (now : ℚ)
    (req : DoseRequest) (drug : DrugCfg)
    (hd : f.drugs req.drugKey = some drug)
    (h1 : ¬(req.drugKey = DrugKey.paracetamol ∧
      ageKnownLt req.childAgeMonths 2 = true))
    (h2 : ¬(ageKnownLt req.childAgeMonths 3 = true))
    (h3 : ¬(ageKnownLt req.childAgeMonths drug.minAgeMonths = true))
    (h4 : req.drugKey = DrugKey.ibuprofen ∧ req.childWeightKg < 5) :
    calcDose f now req =
      { ok := false
        message := "Для ибупрофена: масса тела до 5 кг — противопоказание без назначения врача. Пожалуйста, обратитесь к педиатру ❤️‍🩹"
        flags := ["ibuprofen_weight_gate_any_age"] } := by
  simp only [calcDose, hd, if_neg h1, if_neg h2, if_neg h3, if_pos h4]

/-- When gates 2–6 pass but the concentration is implausible,
`calc_dose` rejects at the plausibility gate. -/
theorem calcDose_eq_badConc (f : Formulary) (now : ℚ) (req : DoseRequest)
    (drug : DrugCfg)
    (hd : f.drugs req.drugKey = some drug)
    (hg : preConcGatesPass drug req)
    (hc : concGateCheck f req = none)
    (hb : badConcentration req) :
    calcDose f now req =
      { ok := false
        message := "Пожалуйста, проверьте концентрацию на флаконе (мг/мл)."
        flags := ["bad_concentration"] } := by
  obtain ⟨h1, h2, h3, h4⟩ := hg
  have hb' : req.concentrationMgPerMl ≤ 0 ∨ 200 < req.concentrationMgPerMl := hb
  simp only [calcDose, hd, hc, if_neg h1, if_neg h2, if_neg h3, if_neg h4,
    if_pos hb']

/-- The daily-maximum flag fires on the daily stage exactly when the
running total plus the raw dose exceeds the daily maximum. -/
theorem dailyStage_flags_iff (f : Formulary) (drug : DrugCfg)
    (req : DoseRequest) :
    (dailyStage f drug req).flags = ["max_daily_exceeded"] ↔
      req.dailyTotalMg + rawDoseMg req >
        drug.maxDailyMgPerKg * req.childWeightKg := by
  simp only [dailyStage]
  split_ifs with h
  · simpa using h
  · simp [successResult_flags, h]

/-- An `ok` daily stage is the success result with the gate condition
false. -/
theorem dailyStage_ok (f : Formulary) (drug : DrugCfg) (req : DoseRequest)
    (h : (dailyStage f drug req).ok = true) :
    dailyStage f drug req = successResult f drug req ∧
      ¬(req.dailyTotalMg + rawDoseMg req >
        drug.maxDailyMgPerKg * req.childWeightKg) := by
  simp only [dailyStage] at h ⊢
  split_ifs at h ⊢ with hgt
  exact ⟨rfl, hgt⟩

/-- Every evaluation of `calc_dose` either ends in the success branch —
with the drug found and a plausible concentration — or is a rejection
carrying no dose fields. -/
theorem calcDose_cases (f : Formulary) (now : ℚ) (req : DoseRequest) :
    (∃ drug, f.drugs req.drugKey = some drug ∧ ¬badConcentration req ∧
      calcDose f now req = successResult f drug req) ∨
    ((calcDose f now req).ok = false ∧ (calcDose f now req).doseMg = none ∧
      (calcDose f now req).doseMl = none) := by
  unfold calcDose
  cases hd : f.drugs req.drugKey with
  | none => right; simp
  | some drug =>
    cases hc : concGateCheck f req with
    | some r =>
      obtain ⟨hok, hmg, hml, _⟩ := concGateCheck_some f req r hc
      simp only [hc]
      split_ifs
      · right; simp
      · right; simp
      · right; simp
      · right; simp
      · exact Or.inr ⟨hok, hmg, hml⟩
    | none =>
      simp only [hc]
      unfold intervalStage
      cases hl : req.lastDoseAt with
      | some t =>
        simp only [dailyStage]
        split_ifs with h1 h2 h3 h4 hb hiv hgt
        · right; simp
        · right; simp
        · right; simp
        · right; simp
        · right; simp
        · right; simp
        · right; simp
        · exact Or.inl ⟨drug, rfl, hb, rfl⟩
      | none =>
        simp only [dailyStage]
        split_ifs with h1 h2 h3 h4 hb hgt
        · right; simp
        · right; simp
        · right; simp
        · right; simp
        · right; simp
        · right; simp
        · exact Or.inl ⟨drug, rfl, hb, rfl⟩

/-- Evaluation of the spec §8 scenario: weight 12 kg, ibuprofen,
20 mg/mL, no prior dose, zero daily total. -/
theorem scenario12_eval :
    (calcDose specFormulary 0 (handlerRequest 12 20 DrugKey.ibuprofen)).ok = true ∧
    (calcDose specFormulary 0 (handlerRequest 12 20 DrugKey.ibuprofen)).doseMg = some 120 ∧
    (calcDose specFormulary 0 (handlerRequest 12 20 DrugKey.ibuprofen)).doseMl = some 6 := by
  norm_num [calcDose, intervalStage, dailyStage, successResult, concGateCheck,
    findIbuprofenConcCfg, ageBandIbuprofenMl, ageKnownLt, rawDoseMg,
    targetMgPerKg, specFormulary, paracetamolCfg, ibuprofenCfg, fixedConc20,
    fixedConc40, handlerRequest, roundTo, pyRound, List.find?]

/-! ## Claims -/

/-- C1, corrected at an explicit input: for weight 5.25 kg with
ibuprofen at 20 mg/mL the raw dose is 5.25 × 10 = 52.5 mg, but the
`dose_mg` field `calc_dose` returns is `round(52.5, 0) = 52`, not the
exact product the claim states. -/
theorem claim_C1_counterexample :
    (calcDose specFormulary 0 (handlerRequest (21/4) 20 DrugKey.ibuprofen)).ok = true ∧
    rawDoseMg (handlerRequest (21/4) 20 DrugKey.ibuprofen) = 105/2 ∧
    (calcDose specFormulary 0 (handlerRequest (21/4) 20 DrugKey.ibuprofen)).doseMg = some 52 ∧
    (52 : ℚ) ≠ 105/2 := by
  refine ⟨?_, ?_, ?_, by norm_num⟩ <;>
    norm_num [calcDose, intervalStage, dailyStage, successResult, concGateCheck,
      findIbuprofenConcCfg, ageBandIbuprofenMl, ageKnownLt, rawDoseMg,
      targetMgPerKg, specFormulary, paracetamolCfg, ibuprofenCfg, fixedConc20,
    fixedConc40, handlerRequest, roundTo, pyRound, List.find?]

/-- C1 (amended): on every success the raw dose is exactly
`weight × target` (10 mg/kg for ibuprofen, 15 mg/kg for paracetamol) and
the returned `dose_mg` is that product rounded to the nearest integer —
so it equals the product exactly whenever the product is integral; the
12 kg / ibuprofen / 20 mg/mL scenario returns `ok`, `dose_mg = 120`,
`dose_ml = 6.0`. -/
theorem claim_C1 (f : Formulary) (now : ℚ) (req : DoseRequest)
    (h : (calcDose f now req).ok = true) :
    (calcDose f now req).doseMg = some (roundTo (rawDoseMg req) 0) ∧
    rawDoseMg req = req.childWeightKg * targetMgPerKg req.drugKey ∧
    targetMgPerKg DrugKey.ibuprofen = 10 ∧
    targetMgPerKg DrugKey.paracetamol = 15 ∧
    (∀ k : ℤ, rawDoseMg req = (k : ℚ) →
      (calcDose f now req).doseMg = some (k : ℚ)) ∧
    (calcDose specFormulary 0 (handlerRequest 12 20 DrugKey.ibuprofen)).ok = true ∧
    (calcDose specFormulary 0 (handlerRequest 12 20 DrugKey.ibuprofen)).doseMg = some 120 ∧
    (calcDose specFormulary 0 (handlerRequest 12 20 DrugKey.ibuprofen)).doseMl = some 6 := by
  obtain ⟨hok, hmg, hml⟩ := scenario12_eval
  rcases calcDose_cases f now req with ⟨drug, _, _, heq⟩ | ⟨hfail, _, _⟩
  · refine ⟨by rw [heq, successResult_doseMg], rfl, rfl, rfl, ?_, hok, hmg, hml⟩
    intro k hk
    rw [heq, successResult_doseMg, hk, roundTo_zero_intCast]
  · rw [hfail] at h; exact absurd h (by simp)

/-- C1 witness: the amended theorem applied to the 12 kg scenario. -/
theorem claim_C1_witness :
    (calcDose specFormulary 0 (handlerRequest 12 20 DrugKey.ibuprofen)).doseMg =
      some (roundTo (rawDoseMg (handlerRequest 12 20 DrugKey.ibuprofen)) 0) ∧
    rawDoseMg (handlerRequest 12 20 DrugKey.ibuprofen) =
      (handlerRequest 12 20 DrugKey.ibuprofen).childWeightKg *
        targetMgPerKg (handlerRequest 12 20 DrugKey.ibuprofen).drugKey ∧
    targetMgPerKg DrugKey.ibuprofen = 10 ∧
    targetMgPerKg DrugKey.paracetamol = 15 ∧
    (∀ k : ℤ, rawDoseMg (handlerRequest 12 20 DrugKey.ibuprofen) = (k : ℚ) →
      (calcDose specFormulary 0 (handlerRequest 12 20 DrugKey.ibuprofen)).doseMg =
        some (k : ℚ)) ∧
    (calcDose specFormulary 0 (handlerRequest 12 20 DrugKey.ibuprofen)).ok = true ∧
    (calcDose specFormulary 0 (handlerRequest 12 20 DrugKey.ibuprofen)).doseMg = some 120 ∧
    (calcDose specFormulary 0 (handlerRequest 12 20 DrugKey.ibuprofen)).doseMl = some 6 :=
  claim_C1 specFormulary 0 (handlerRequest 12 20 DrugKey.ibuprofen)
    scenario12_eval.1

/-- C7: every `DoseResult` that `calc_dose` returns with `ok = false`
has both `dose_mg` and `dose_ml` absent; rejections are ordinary
structured results of the total function `calcDose`, never exceptions. -/
theorem claim_C7 (f : Formulary) (now : ℚ) (req : DoseRequest)
    (h : (calcDose f now req).ok = false) :
    (calcDose f now req).doseMg = none ∧ (calcDose f now req).doseMl = none := by
  rcases calcDose_cases f now req with ⟨drug, _, _, heq⟩ | ⟨_, hmg, hml⟩
  · rw [heq, successResult_ok] at h; exact absurd h (by simp)
  · exact ⟨hmg, hml⟩

/-- C7 witness: the 4 kg ibuprofen request is rejected (weight floor)
and indeed carries no dose fields. -/
theorem claim_C7_witness :
    (calcDose specFormulary 0 (handlerRequest 4 20 DrugKey.ibuprofen)).doseMg = none ∧
    (calcDose specFormulary 0 (handlerRequest 4 20 DrugKey.ibuprofen)).doseMl = none :=
  claim_C7 specFormulary 0 (handlerRequest 4 20 DrugKey.ibuprofen)
    (by norm_num [calcDose, ageKnownLt, specFormulary, handlerRequest])

/-- C8: every successful `calc_dose` result has
`dose_ml = round(dose_mg / concentration × 2) / 2`, a multiple of
0.5 mL (the final 1-digit display rounding leaves half-integers
unchanged). -/
theorem claim_C8 (f : Formulary) (now : ℚ) (req : DoseRequest)
    (h : (calcDose f now req).ok = true) :
    ∃ k : ℤ, (calcDose f now req).doseMl = some ((k : ℚ) / 2) ∧
      k = pyRound (rawDoseMg req / req.concentrationMgPerMl * 2) := by
  rcases calcDose_cases f now req with ⟨drug, _, _, heq⟩ | ⟨hfail, _, _⟩
  · refine ⟨pyRound (rawDoseMg req / req.concentrationMgPerMl * 2), ?_, rfl⟩
    rw [heq, successResult_doseMl, roundTo_one_half]
  · rw [hfail] at h; exact absurd h (by simp)

/-- C8 witness: the 12 kg scenario's 6.0 mL is 12/2 mL. -/
theorem claim_C8_witness :
    ∃ k : ℤ,
      (calcDose specFormulary 0 (handlerRequest 12 20 DrugKey.ibuprofen)).doseMl =
        some ((k : ℚ) / 2) ∧
      k = pyRound (rawDoseMg (handlerRequest 12 20 DrugKey.ibuprofen) /
        (handlerRequest 12 20 DrugKey.ibuprofen).concentrationMgPerMl * 2) :=
  claim_C8 specFormulary 0 (handlerRequest 12 20 DrugKey.ibuprofen)
    scenario12_eval.1

/-- C10: `calc_dose` reaches the volume-conversion division only with a
plausible concentration — any `ok` result implies
`0 < concentration ≤ 200`, so the division is never by zero. -/
theorem claim_C10 (f : Formulary) (now : ℚ) (req : DoseRequest)
    (h : (calcDose f now req).ok = true) :
    0 < req.concentrationMgPerMl ∧ req.concentrationMgPerMl ≤ 200 ∧
      req.concentrationMgPerMl ≠ 0 := by
  rcases calcDose_cases f now req with ⟨drug, _, hb, _⟩ | ⟨hfail, _, _⟩
  · unfold badConcentration at hb
    push_neg at hb
    exact ⟨hb.1, hb.2, ne_of_gt hb.1⟩
  · rw [hfail] at h; exact absurd h (by simp)

/-- C10 witness: the 12 kg scenario has concentration 20 within
bounds. -/
theorem claim_C10_witness :
    0 < (handlerRequest 12 20 DrugKey.ibuprofen).concentrationMgPerMl ∧
    (handlerRequest 12 20 DrugKey.ibuprofen).concentrationMgPerMl ≤ 200 ∧
    (handlerRequest 12 20 DrugKey.ibuprofen).concentrationMgPerMl ≠ 0 :=
  claim_C10 specFormulary 0 (handlerRequest 12 20 DrugKey.ibuprofen)
    scenario12_eval.1

/-- C2: with `max_daily_mg = max_daily_mg_per_kg × weight`, an
evaluation that reaches the daily-maximum gate rejects with flag
`max_daily_exceeded` (and no dose fields) exactly when
`daily_total_mg + dose_mg` exceeds `max_daily_mg`; in particular a prior
total of `max_daily_mg − 1` plus any computed dose of at least 2 mg is
rejected. -/
theorem claim_C2 (f : Formulary) (now : ℚ) (req : DoseRequest)
    (drug : DrugCfg)
    (hd : f.drugs req.drugKey = some drug)
    (hg : preConcGatesPass drug req)
    (hc : concGateCheck f req = none)
    (hb : ¬badConcentration req)
    (hi : intervalGatePasses drug now req) :
    ((calcDose f now req).flags = ["max_daily_exceeded"] ↔
      req.dailyTotalMg + rawDoseMg req >
        drug.maxDailyMgPerKg * req.childWeightKg) ∧
    ((calcDose f now req).flags = ["max_daily_exceeded"] →
      (calcDose f now req).ok = false ∧
      (calcDose f now req).doseMg = none ∧
      (calcDose f now req).doseMl = none) ∧
    (req.dailyTotalMg = drug.maxDailyMgPerKg * req.childWeightKg - 1 →
      2 ≤ rawDoseMg req →
      (calcDose f now req).flags = ["max_daily_exceeded"]) := by
  have he := calcDose_eq_dailyStage f now req drug hd hg hc hb hi
  rw [he]
  refine ⟨dailyStage_flags_iff f drug req, ?_, ?_⟩
  · intro hf
    simp only [dailyStage] at hf ⊢
    split_ifs at hf ⊢ with hgt
    · simp
    · rw [successResult_flags] at hf; exact absurd hf (by simp)
  · intro htot hdose
    rw [dailyStage_flags_iff]
    rw [htot]
    linarith

/-- C2 witness: the boundary request (prior total 599 mg of a 600 mg
daily maximum, computed dose 150 mg) is rejected. -/
theorem claim_C2_witness :
    ((calcDose specFormulary 0 reqDailyBoundary).flags = ["max_daily_exceeded"] ↔
      reqDailyBoundary.dailyTotalMg + rawDoseMg reqDailyBoundary >
        paracetamolCfg.maxDailyMgPerKg * reqDailyBoundary.childWeightKg) ∧
    ((calcDose specFormulary 0 reqDailyBoundary).flags = ["max_daily_exceeded"] →
      (calcDose specFormulary 0 reqDailyBoundary).ok = false ∧
      (calcDose specFormulary 0 reqDailyBoundary).doseMg = none ∧
      (calcDose specFormulary 0 reqDailyBoundary).doseMl = none) ∧
    (reqDailyBoundary.dailyTotalMg =
        paracetamolCfg.maxDailyMgPerKg * reqDailyBoundary.childWeightKg - 1 →
      2 ≤ rawDoseMg reqDailyBoundary →
      (calcDose specFormulary 0 reqDailyBoundary).flags = ["max_daily_exceeded"]) :=
  claim_C2 specFormulary 0 reqDailyBoundary paracetamolCfg rfl
    (by norm_num [preConcGatesPass, ageKnownLt, reqDailyBoundary])
    rfl
    (by norm_num [badConcentration, reqDailyBoundary])
    (by intro t ht; simp [reqDailyBoundary] at ht)

/-- C3: an evaluation reaching the interval gate with a previous dose at
`T` rejects when `now < T + min_interval_hours`, reporting
`min_next_time = T + min_interval_hours`, and passes the interval gate
once `now` has reached that instant. -/
theorem claim_C3 (f : Formulary) (now : ℚ) (req : DoseRequest)
    (drug : DrugCfg) (T : ℚ)
    (hd : f.drugs req.drugKey = some drug)
    (hg : preConcGatesPass drug req)
    (hc : concGateCheck f req = none)
    (hb : ¬badConcentration req)
    (hl : req.lastDoseAt = some T) :
    (now < T + 3600 * (drug.minIntervalHours : ℚ) →
      (calcDose f now req).ok = false ∧
      (calcDose f now req).flags = ["interval_violation"] ∧
      (calcDose f now req).minNextTime =
        some (T + 3600 * (drug.minIntervalHours : ℚ))) ∧
    (T + 3600 * (drug.minIntervalHours : ℚ) ≤ now →
      "interval_violation" ∉ (calcDose f now req).flags) := by
  rw [calcDose_eq_intervalStage f now req drug hd hg hc hb]
  unfold intervalStage
  simp only [hl]
  constructor
  · intro hlt
    simp only [if_pos hlt]
    exact ⟨trivial, trivial, trivial⟩
  · intro hge
    simp only [if_neg (not_lt.mpr hge), dailyStage]
    split_ifs with hgt
    · simp
    · rw [successResult_flags]; simp

/-- C3 witness: with a previous ibuprofen dose at instant 0 and a 6 h
interval, evaluating one second before `T + 6h` rejects with
`min_next_time = 21600`. -/
theorem claim_C3_witness :
    (21599 < (0 : ℚ) + 3600 * (ibuprofenCfg.minIntervalHours : ℚ) →
      (calcDose specFormulary 21599 reqInterval).ok = false ∧
      (calcDose specFormulary 21599 reqInterval).flags = ["interval_violation"] ∧
      (calcDose specFormulary 21599 reqInterval).minNextTime =
        some ((0 : ℚ) + 3600 * (ibuprofenCfg.minIntervalHours : ℚ))) ∧
    ((0 : ℚ) + 3600 * (ibuprofenCfg.minIntervalHours : ℚ) ≤ 21599 →
      "interval_violation" ∉ (calcDose specFormulary 21599 reqInterval).flags) :=
  claim_C3 specFormulary 21599 reqInterval ibuprofenCfg 0 rfl
    (by norm_num [preConcGatesPass, ageKnownLt, reqInterval])
    (by norm_num [concGateCheck, findIbuprofenConcCfg, specFormulary,
      ibuprofenCfg, fixedConc20, fixedConc40, reqInterval, List.find?])
    (by norm_num [badConcentration, reqInterval])
    rfl

/-- C4: when the requested concentration matches a declared
fixed-concentration entry, its own weight floor (and, with the weight
floor passed, its age floor when age is known) rejects with the
concentration-specific flag; in the spec §8 scenario the 8 kg / 10 month
request at 40 mg/mL is rejected by the entry's 10 kg floor although the
5 kg drug-level floor passes. -/
theorem claim_C4 (f : Formulary) (now : ℚ) (req : DoseRequest)
    (drug : DrugCfg) (cfg : FixedConc)
    (hd : f.drugs req.drugKey = some drug)
    (hkey : req.drugKey = DrugKey.ibuprofen)
    (hroute : req.route = Route.oral)
    (hg : preConcGatesPass drug req)
    (hfind : findIbuprofenConcCfg f req.concentrationMgPerMl = some cfg) :
    (cfg.minWeightKg ≠ 0 → req.childWeightKg < cfg.minWeightKg →
      (calcDose f now req).ok = false ∧
      (calcDose f now req).flags = ["ibuprofen_40_contra_weight"]) ∧
    (¬(cfg.minWeightKg ≠ 0 ∧ req.childWeightKg < cfg.minWeightKg) →
      cfg.minAgeMonths ≠ 0 →
      ageKnownLt req.childAgeMonths cfg.minAgeMonths = true →
      (calcDose f now req).ok = false ∧
      (calcDose f now req).flags = ["ibuprofen_40_contra_age"]) ∧
    (calcDose specFormulary 0 reqConcGate).flags = ["ibuprofen_40_contra_weight"] ∧
    (calcDose specFormulary 0 reqConcGate).ok = false ∧
    ¬(reqConcGate.childWeightKg < 5) := by
  refine ⟨?_, ?_, ?_, ?_, by norm_num [reqConcGate]⟩
  · intro hw0 hwlt
    have hc : concGateCheck f req = some
        { ok := false
          message := "Для ибупрофена 200 мг/5мл (40 мг/мл): масса тела ребёнка менее 10 кг — противопоказание. Нужна консультация педиатра ❤️‍🩹"
          flags := ["ibuprofen_40_contra_weight"] } := by
      unfold concGateCheck
      rw [if_pos ⟨hkey, hroute⟩]
      simp only [hfind]
      rw [if_pos ⟨hw0, hwlt⟩]
    rw [calcDose_eq_concGate f now req drug _ hd hg hc]
    exact ⟨rfl, rfl⟩
  · intro hnw ha0 halt
    have hc : concGateCheck f req = some
        { ok := false
          message := "Для ибупрофена 200 мг/5мл (40 мг/мл): возраст до 12 месяцев — противопоказание. Нужна консультация педиатра ❤️‍🩹"
          flags := ["ibuprofen_40_contra_age"] } := by
      unfold concGateCheck
      rw [if_pos ⟨hkey, hroute⟩]
      simp only [hfind]
      rw [if_neg hnw, if_pos ⟨ha0, halt⟩]
    rw [calcDose_eq_concGate f now req drug _ hd hg hc]
    exact ⟨rfl, rfl⟩
  · norm_num [calcDose, concGateCheck, findIbuprofenConcCfg, ageKnownLt,
      specFormulary, paracetamolCfg, ibuprofenCfg, fixedConc20, fixedConc40,
      reqConcGate, List.find?]
  · norm_num [calcDose, concGateCheck, findIbuprofenConcCfg, ageKnownLt,
      specFormulary, paracetamolCfg, ibuprofenCfg, fixedConc20, fixedConc40,
      reqConcGate, List.find?]

/-- C4 witness: the spec §8 scenario instantiated — the 40 mg/mL entry's
10 kg floor rejects the 8 kg request. -/
theorem claim_C4_witness :
    (fixedConc40.minWeightKg ≠ 0 → reqConcGate.childWeightKg < fixedConc40.minWeightKg →
      (calcDose specFormulary 0 reqConcGate).ok = false ∧
      (calcDose specFormulary 0 reqConcGate).flags = ["ibuprofen_40_contra_weight"]) ∧
    (¬(fixedConc40.minWeightKg ≠ 0 ∧ reqConcGate.childWeightKg < fixedConc40.minWeightKg) →
      fixedConc40.minAgeMonths ≠ 0 →
      ageKnownLt reqConcGate.childAgeMonths fixedConc40.minAgeMonths = true →
      (calcDose specFormulary 0 reqConcGate).ok = false ∧
      (calcDose specFormulary 0 reqConcGate).flags = ["ibuprofen_40_contra_age"]) ∧
    (calcDose specFormulary 0 reqConcGate).flags = ["ibuprofen_40_contra_weight"] ∧
    (calcDose specFormulary 0 reqConcGate).ok = false ∧
    ¬(reqConcGate.childWeightKg < 5) :=
  claim_C4 specFormulary 0 reqConcGate ibuprofenCfg fixedConc40 rfl rfl rfl
    (by norm_num [preConcGatesPass, ageKnownLt, reqConcGate, ibuprofenCfg])
    (by norm_num [findIbuprofenConcCfg, specFormulary, ibuprofenCfg,
      fixedConc20, fixedConc40, reqConcGate, List.find?])

/-- C9, corrected at an explicit input: `calculate_and_finish` builds
its request with `last_dose_at = None` and `daily_total_mg = 0`, yet the
daily-maximum gate still fires on that path for a negative weight
(nothing on the paracetamol path validates positivity): at weight −1 kg
the computed dose −15 exceeds the daily maximum −60. -/
theorem claim_C9_counterexample :
    (handlerRequest (-1) 24 DrugKey.paracetamol).lastDoseAt = none ∧
    (handlerRequest (-1) 24 DrugKey.paracetamol).dailyTotalMg = 0 ∧
    (calcDose specFormulary 0 (handlerRequest (-1) 24 DrugKey.paracetamol)).flags =
      ["max_daily_exceeded"] := by
  refine ⟨rfl, rfl, ?_⟩
  norm_num [calcDose, intervalStage, dailyStage, concGateCheck, ageKnownLt,
    specFormulary, paracetamolCfg, handlerRequest, rawDoseMg, targetMgPerKg]
  simp

/-- C9 (amended): every request built by `calculate_and_finish` has
`last_dose_at = None` and `daily_total_mg = 0`; on that path the
interval gate never rejects, and for every positive weight the
daily-maximum gate never rejects either — the ledger's 24-hour sum is
never fed into the calculator by this caller. -/
theorem claim_C9 (w c now : ℚ) (d : DrugKey) (hw : 0 < w) :
    (handlerRequest w c d).lastDoseAt = none ∧
    (handlerRequest w c d).dailyTotalMg = 0 ∧
    "interval_violation" ∉ (calcDose specFormulary now (handlerRequest w c d)).flags ∧
    "max_daily_exceeded" ∉ (calcDose specFormulary now (handlerRequest w c d)).flags := by
  have key : (calcDose specFormulary now (handlerRequest w c d)).flags =
        ["bad_concentration"] ∨
      (calcDose specFormulary now (handlerRequest w c d)).flags =
        ["ibuprofen_weight_gate_any_age"] ∨
      (calcDose specFormulary now (handlerRequest w c d)).flags =
        ["ibuprofen_40_contra_weight"] ∨
      (calcDose specFormulary now (handlerRequest w c d)).flags =
        ["ibuprofen_40_contra_age"] ∨
      (calcDose specFormulary now (handlerRequest w c d)).flags = [] := by
    cases d with
    | paracetamol =>
      have hg : preConcGatesPass paracetamolCfg
          (handlerRequest w c DrugKey.paracetamol) := by
        refine ⟨?_, ?_, ?_, ?_⟩ <;> simp [ageKnownLt, handlerRequest]
      have hcg : concGateCheck specFormulary
          (handlerRequest w c DrugKey.paracetamol) = none := by
        simp [concGateCheck, handlerRequest]
      by_cases hb : badConcentration (handlerRequest w c DrugKey.paracetamol)
      · rw [calcDose_eq_badConc specFormulary now _ paracetamolCfg
          specFormulary_para hg hcg hb]
        left; rfl
      · rw [calcDose_eq_dailyStage specFormulary now _ paracetamolCfg
          specFormulary_para hg hcg hb
          (by intro t ht; simp [handlerRequest] at ht)]
        simp only [dailyStage]
        split_ifs with hgt
        · exfalso
          simp only [handlerRequest, rawDoseMg, targetMgPerKg,
            paracetamolCfg] at hgt
          linarith
        · right; right; right; right; exact successResult_flags _ _ _
    | ibuprofen =>
      by_cases hw5 : w < 5
      · rw [calcDose_eq_ibuWeightGate specFormulary now _ ibuprofenCfg
          specFormulary_ibu (by simp [handlerRequest])
          (by simp [ageKnownLt, handlerRequest])
          (by simp [ageKnownLt, handlerRequest]) ⟨rfl, hw5⟩]
        right; left; rfl
      · have hg : preConcGatesPass ibuprofenCfg
            (handlerRequest w c DrugKey.ibuprofen) := by
          refine ⟨?_, ?_, ?_, ?_⟩
          · simp [handlerRequest, ageKnownLt]
          · simp [ageKnownLt, handlerRequest]
          · simp [ageKnownLt, handlerRequest]
          · simpa [handlerRequest] using hw5
        cases hcg : concGateCheck specFormulary
            (handlerRequest w c DrugKey.ibuprofen) with
        | some r =>
          rw [calcDose_eq_concGate specFormulary now _ ibuprofenCfg r
            specFormulary_ibu hg hcg]
          rcases (concGateCheck_some _ _ r hcg).2.2.2 with h | h
          · right; right; left; exact h
          · right; right; right; left; exact h
        | none =>
          by_cases hb : badConcentration (handlerRequest w c DrugKey.ibuprofen)
          · rw [calcDose_eq_badConc specFormulary now _ ibuprofenCfg
              specFormulary_ibu hg hcg hb]
            left; rfl
          · rw [calcDose_eq_dailyStage specFormulary now _ ibuprofenCfg
              specFormulary_ibu hg hcg hb
              (by intro t ht; simp [handlerRequest] at ht)]
            simp only [dailyStage]
            split_ifs with hgt
            · exfalso
              simp only [handlerRequest, rawDoseMg, targetMgPerKg,
                ibuprofenCfg] at hgt
              linarith
            · right; right; right; right; exact successResult_flags _ _ _
  refine ⟨rfl, rfl, ?_, ?_⟩ <;>
    (rcases key with h | h | h | h | h <;> simp [h])

/-- C9 witness: the amended theorem at weight 12, 20 mg/mL,
ibuprofen. -/
theorem claim_C9_witness :
    (handlerRequest 12 20 DrugKey.ibuprofen).lastDoseAt = none ∧
    (handlerRequest 12 20 DrugKey.ibuprofen).dailyTotalMg = 0 ∧
    "interval_violation" ∉
      (calcDose specFormulary 0 (handlerRequest 12 20 DrugKey.ibuprofen)).flags ∧
    "max_daily_exceeded" ∉
      (calcDose specFormulary 0 (handlerRequest 12 20 DrugKey.ibuprofen)).flags :=
  claim_C9 12 20 0 DrugKey.ibuprofen (by norm_num)

/-- C5: a recorded dose event at `T` is counted by the 24-hour sum for
every query instant in `[T, T+24h)`, is excluded strictly after
`T+24h`, and intermediate pruning (at any `t ≤ q`) never changes the
reported sum — the window slides with the query time. -/
theorem claim_C5 (db : List DoseEvent) (e : DoseEvent) (uid : ℤ)
    (drug : DrugKey) (childName : Option String) (t q : ℚ)
    (he : e ∈ db)
    (hu : e.userId = uid)
    (hk : e.drugKey = drug)
    (hcn : childScopeMatch childName e = true)
    (htq : t ≤ q) :
    (e.createdAt ≤ q ∧ q < e.createdAt + window24h →
      e ∈ dailyRows q uid drug childName
        (pruneOlderThan24h t uid (some drug) db)) ∧
    (e.createdAt + window24h < q →
      e ∉ dailyRows q uid drug childName
        (pruneOlderThan24h t uid (some drug) db)) ∧
    (getDailyTotalMg q uid drug childName
        (pruneOlderThan24h t uid (some drug) db)).1 =
      (getDailyTotalMg q uid drug childName db).1 := by
  have hrows : ∀ (s : ℚ), s ≤ q → ∀ l : List DoseEvent,
      dailyRows q uid drug childName (pruneOlderThan24h s uid (some drug) l) =
        dailyRows q uid drug childName l := by
    intro s hs l
    unfold dailyRows pruneOlderThan24h
    rw [List.filter_filter]
    apply List.filter_congr
    intro x _
    by_cases hp : dailyRowPred q uid drug childName x
    · have hkeep : ¬(x.userId = uid ∧ drugScopeMatch (some drug) x = true ∧
          x.createdAt < s - window24h) := by
        rintro ⟨-, -, hlt⟩
        have h1 := hp.2.2.2
        linarith
      simp [hp, hkeep]
    · simp [hp]
  refine ⟨?_, ?_, ?_⟩
  · rintro ⟨h1, h2⟩
    rw [hrows t htq]
    unfold dailyRows
    rw [List.mem_filter]
    refine ⟨he, ?_⟩
    simp only [decide_eq_true_eq]
    exact ⟨hu, hk, hcn, by linarith⟩
  · intro hgt hin
    rw [hrows t htq] at hin
    unfold dailyRows at hin
    rw [List.mem_filter] at hin
    have hpred := hin.2
    simp only [decide_eq_true_eq] at hpred
    have h4 := hpred.2.2.2
    linarith
  · unfold getDailyTotalMg
    simp only
    rw [hrows q le_rfl, hrows t htq, hrows q le_rfl]

/-- C5 witness: one 250 mg paracetamol event at instant 100, pruned at
150 and queried at 200: it is counted and the sum is unchanged by the
pruning. -/
theorem claim_C5_witness :
    (eventW.createdAt ≤ 200 ∧ 200 < eventW.createdAt + window24h →
      eventW ∈ dailyRows 200 1 DrugKey.paracetamol none
        (pruneOlderThan24h 150 1 (some DrugKey.paracetamol) [eventW])) ∧
    (eventW.createdAt + window24h < 200 →
      eventW ∉ dailyRows 200 1 DrugKey.paracetamol none
        (pruneOlderThan24h 150 1 (some DrugKey.paracetamol) [eventW])) ∧
    (getDailyTotalMg 200 1 DrugKey.paracetamol none
        (pruneOlderThan24h 150 1 (some DrugKey.paracetamol) [eventW])).1 =
      (getDailyTotalMg 200 1 DrugKey.paracetamol none [eventW]).1 :=
  claim_C5 [eventW] eventW 1 DrugKey.paracetamol none 150 200 (by simp)
    rfl rfl rfl (by norm_num)

/-- C6, corrected at an explicit input: against a store whose lock
clears after one attempt — a contention the module's own
`_db_connect_with_retry` helper survives (succeeding on attempt 1 after
one 0.1 s backoff) — both `get_daily_total_mg` and `save_dose_event`
fail outright, because neither wraps its connections in the retry
loop. -/
theorem claim_C6_counterexample :
    getDailyTotalMgRun lockedOnce 0 1 DrugKey.paracetamol none [] =
      Except.error DbError.locked ∧
    saveDoseEventRun lockedOnce 0 1 DrugKey.paracetamol 250 none [] =
      Except.error DbError.locked ∧
    (dbConnectWithRetry lockedOnce).1 = Except.ok 1 ∧
    (dbConnectWithRetry lockedOnce).2 = [RETRY_DELAY * 2 ^ 0] :=
  ⟨rfl, rfl, rfl, rfl⟩

/-- C6 (amended): `save_dose_event` and `get_daily_total_mg` make a
single attempt per storage connection with no retry — any locked
attempt surfaces as a raised error (a distinct failure, never a value
such as a `0` daily total) — while the bounded exponential-backoff
helper (`MAX_RETRIES = 5` attempts, delays `0.1 × 2^i` s) exists in the
module but is not applied to these ledger operations. -/
theorem claim_C6 (locked : ℕ → Bool) (now : ℚ) (uid : ℤ) (drug : DrugKey)
    (doseMg : ℚ) (childName : Option String) (db : List DoseEvent)
    (hl : locked 0 = true) :
    getDailyTotalMgRun locked now uid drug childName db =
      Except.error DbError.locked ∧
    saveDoseEventRun locked now uid drug doseMg childName db =
      Except.error DbError.locked ∧
    (∀ v, getDailyTotalMgRun locked now uid drug childName db ≠ Except.ok v) ∧
    (∀ i, i < MAX_RETRIES → (∀ j, j < i → locked j = true) →
      locked i = false →
      dbConnectWithRetry locked =
        (Except.ok i, (List.range i).map fun j => RETRY_DELAY * 2 ^ j)) ∧
    ((∀ j, j < MAX_RETRIES → locked j = true) →
      (dbConnectWithRetry locked).1 = Except.error DbError.locked) := by
  have h1 : getDailyTotalMgRun locked now uid drug childName db =
      Except.error DbError.locked := by
    unfold getDailyTotalMgRun
    rw [if_pos hl]
  refine ⟨h1, ?_, ?_, ?_, ?_⟩
  · unfold saveDoseEventRun
    rw [if_pos hl]
  · intro v hv
    rw [h1] at hv
    exact absurd hv (by simp)
  · intro i hi hprev hcur
    have hi5 : i < 5 := hi
    interval_cases i
    · simp [dbConnectWithRetry, retryFrom, MAX_RETRIES, hcur]
    · have h0 := hprev 0 (by norm_num)
      simp [dbConnectWithRetry, retryFrom, MAX_RETRIES, h0, hcur,
        List.range_succ]
    · have h0 := hprev 0 (by norm_num)
      have h1' := hprev 1 (by norm_num)
      simp [dbConnectWithRetry, retryFrom, MAX_RETRIES, h0, h1', hcur,
        List.range_succ]
    · have h0 := hprev 0 (by norm_num)
      have h1' := hprev 1 (by norm_num)
      have h2' := hprev 2 (by norm_num)
      simp [dbConnectWithRetry, retryFrom, MAX_RETRIES, h0, h1', h2', hcur,
        List.range_succ]
    · have h0 := hprev 0 (by norm_num)
      have h1' := hprev 1 (by norm_num)
      have h2' := hprev 2 (by norm_num)
      have h3' := hprev 3 (by norm_num)
      simp [dbConnectWithRetry, retryFrom, MAX_RETRIES, h0, h1', h2', h3',
        hcur, List.range_succ]
  · intro hall
    have h0 := hall 0 (by norm_num [MAX_RETRIES])
    have h1' := hall 1 (by norm_num [MAX_RETRIES])
    have h2' := hall 2 (by norm_num [MAX_RETRIES])
    have h3' := hall 3 (by norm_num [MAX_RETRIES])
    have h4' := hall 4 (by norm_num [MAX_RETRIES])
    simp [dbConnectWithRetry, retryFrom, MAX_RETRIES, h0, h1', h2', h3', h4']

/-- C6 witness: the amended theorem at the transiently locked store. -/
theorem claim_C6_witness :
    getDailyTotalMgRun lockedOnce 0 1 DrugKey.paracetamol none [] =
      Except.error DbError.locked ∧
    saveDoseEventRun lockedOnce 0 1 DrugKey.paracetamol 250 none [] =
      Except.error DbError.locked ∧
    (∀ v, getDailyTotalMgRun lockedOnce 0 1 DrugKey.paracetamol none [] ≠
      Except.ok v) ∧
    (∀ i, i < MAX_RETRIES → (∀ j, j < i → lockedOnce j = true) →
      lockedOnce i = false →
      dbConnectWithRetry lockedOnce =
        (Except.ok i, (List.range i).map fun j => RETRY_DELAY * 2 ^ j)) ∧
    ((∀ j, j < MAX_RETRIES → lockedOnce j = true) →
      (dbConnectWithRetry lockedOnce).1 = Except.error DbError.locked) :=
  claim_C6 lockedOnce 0 1 DrugKey.paracetamol 250 none [] rfl

end MamaHelper
